/-
Verification of the redkite/munir worker-coordination layer.

This file shallowly embeds the core control-plane code of the repository:

* `OdinData._send_receive` and the surrounding client state
  (src/munir/odin_data_util.py) — message-id correlation, timeout
  handling, connection-down short circuit;
* `MonitoredIpcChannel._handle_monitor_event`
  (src/munir/monitored_ipc_channel.py) — transport-event driven
  connection state;
* `OdinData.load_config`, `set_config`, `create_acquisition`,
  `start_acquisition`, `stop_acquisition` (src/munir/odin_data_util.py);
* `MunirFpController.set` / `set_execute` (src/munir/fp_controller.py) —
  the edge-triggered execution flag;
* `MunirManager.execute_acquisition` (src/munir/munir_manager.py) —
  per-subsystem fan-out and aggregation.

Python dicts are embedded as ordered association lists with
dict-assignment semantics (replace in place if the key exists, append
otherwise); JSON documents as an inductive value type.  Wall-clock time
in the receive loop is made explicit: each pending response carries the
delay between the start of the poll that receives it and its arrival,
and `zmq.poll(timeout)` returns POLLIN when that delay is within the
timeout, consuming that much time, and returns empty after consuming the
full timeout otherwise.
-/
import Mathlib

namespace Redkite

/-! ## Embedding of `OdinData._send_receive` (odin_data_util.py, lines 37-74)

A pending response on the channel.  `gap` is the time (ms) from the start
of the poll call that receives it until it arrives; `valid` is the result
of `IpcMessage.is_valid()` on the decoded message; `rid` is
`response.attrs.get('id')`; `isAck` records whether
`response.attrs['msg_type']` is `IpcMessage.ACK`; `attrs` abstracts the
identity of the full attribute dictionary returned to the caller. -/
structure Resp where
  gap : Nat
  valid : Bool
  rid : Option Nat
  isAck : Bool
  attrs : Nat
deriving DecidableEq, Repr

/-- The value `_send_receive` produces: either the `attrs` dictionary of a
valid response whose id matched (a non-empty dict, hence truthy in Python),
or the empty dict `{}` (falsy). -/
inductive RecvResult where
  | payload (isAck : Bool) (attrs : Nat)
  | empty
deriving DecidableEq, Repr

/-- Outcome of the `while self.channel.poll(...) == IpcChannel.POLLIN` loop
of `_send_receive`: the returned value, the total wall-clock time consumed
by the loop, and how many pending responses were received (`recv`-ed) from
the channel. -/
structure LoopOut where
  result : RecvResult
  elapsed : Nat
  processed : Nat
deriving DecidableEq, Repr

/-- The receive loop of `OdinData._send_receive`, lines 59-73 of
odin_data_util.py.  Each iteration polls the channel afresh with the full
configured timeout.  A valid response whose id equals the last sent
`msg_id` is returned; a valid response with any other id is dropped with a
warning and the loop continues; an invalid response makes the function
return `{}` at once; a poll that sees no data within the timeout falls out
of the loop and `{}` is returned. -/
def sendReceiveLoop (msgId timeoutMs : Nat) : List Resp → LoopOut
  | [] => ⟨.empty, timeoutMs, 0⟩
  | r :: rest =>
    if r.gap ≤ timeoutMs then
      if r.valid then
        if r.rid = some msgId then
          ⟨.payload r.isAck r.attrs, r.gap, 1⟩
        else
          let out := sendReceiveLoop msgId timeoutMs rest
          ⟨out.result, r.gap + out.elapsed, out.processed + 1⟩
      else
        ⟨.empty, r.gap, 1⟩
    else
      ⟨.empty, timeoutMs, 0⟩

/-- Client-side state touched by `_send_receive`: the connection flag held
by the `MonitoredIpcChannel`, the message-id counter, and counters of
transport `send` and `recv` calls (the mock-transport call counters of the
spec's testable property). -/
structure OdinDataState where
  connStatus : Bool
  msgId : Nat
  sendCount : Nat
  recvCount : Nat
deriving DecidableEq, Repr

/-- `OdinData._send_receive` (odin_data_util.py, lines 37-74).  If
`check_connection()` is false it returns `{}` immediately; otherwise it
increments `msg_id`, sends the encoded message and runs the receive
loop over the pending responses. -/
def sendReceive (st : OdinDataState) (timeoutMs : Nat) (pending : List Resp) :
    RecvResult × OdinDataState :=
  if st.connStatus = false then
    (.empty, st)
  else
    let st1 : OdinDataState :=
      { st with msgId := st.msgId + 1, sendCount := st.sendCount + 1 }
    let out := sendReceiveLoop st1.msgId timeoutMs pending
    (out.result, { st1 with recvCount := st1.recvCount + out.processed })

/-! ## Embedding of `MonitoredIpcChannel` (monitored_ipc_channel.py) -/

/-- A transport monitor event delivered to `_handle_monitor_event`.  The
monitor socket is subscribed to `EVENT_ACCEPTED | EVENT_DISCONNECTED`;
`other` stands for any other event id, on which the handler's
`if`/`elif` chain leaves the state untouched. -/
inductive MonitorEvent where
  | accepted
  | disconnected
  | other
deriving DecidableEq, Repr

/-- `self.connection_status = False` in `MonitoredIpcChannel.__init__`. -/
def initConnectionStatus : Bool := false

/-- `MonitoredIpcChannel._handle_monitor_event` (lines 31-46): sets the
connection flag true on `EVENT_ACCEPTED`, false on `EVENT_DISCONNECTED`,
and leaves it unchanged otherwise. -/
def handleMonitorEvent (status : Bool) (ev : MonitorEvent) : Bool :=
  match ev with
  | .accepted => true
  | .disconnected => false
  | .other => status

/-! ## Theorems: message correlation and connection-down short circuit -/

/-- C1: the receive loop returns the payload of the first response whose id
matches the sent message id, consumes exactly the discarded prefix plus the
match, and never receives anything queued after the match. -/
theorem sendReceive_correlates (msgId timeoutMs : Nat)
    (pre : List Resp) (m : Resp) (post : List Resp)
    (hpre : ∀ r ∈ pre, r.valid = true ∧ r.gap ≤ timeoutMs ∧ r.rid ≠ some msgId)
    (hv : m.valid = true) (hg : m.gap ≤ timeoutMs) (hid : m.rid = some msgId) :
    (sendReceiveLoop msgId timeoutMs (pre ++ m :: post)).result =
      RecvResult.payload m.isAck m.attrs ∧
    (sendReceiveLoop msgId timeoutMs (pre ++ m :: post)).processed =
      pre.length + 1 := by
  induction pre with
  | nil =>
    simp only [List.nil_append, sendReceiveLoop, hg, hv, hid, if_pos, if_true]
    simp
  | cons r rs ih =>
    obtain ⟨hrv, hrg, hrid⟩ := hpre r (List.mem_cons_self r rs)
    have ih2 := ih (fun x hx => hpre x (List.mem_cons_of_mem r hx))
    simp only [List.cons_append, sendReceiveLoop, if_pos hrg, hrv, if_true]
    rw [if_neg hrid]
    refine ⟨ih2.1, ?_⟩
    have h2 := ih2.2
    simp only [List.append_eq] at h2 ⊢
    simp only [List.length_cons]
    omega

/-- The two stale responses (ids 3 and 7) of the spec's correlation
example. -/
def staleResponses : List Resp :=
  [⟨1, true, some 3, true, 30⟩, ⟨1, true, some 7, true, 70⟩]

/-- The matching response (id 5) of the spec's correlation example. -/
def matchResponse : Resp := ⟨1, true, some 5, true, 50⟩

/-- The late response (id 9) of the spec's correlation example. -/
def lateResponses : List Resp := [⟨1, true, some 9, true, 90⟩]

/-- C1 witness: sending id 5 against queued responses with ids 3, 7, 5, 9
returns the id-5 payload, having received exactly the three first
responses; the id-9 response is never processed. -/
theorem sendReceive_correlates_witness :
    (sendReceiveLoop 5 1000
        (staleResponses ++ matchResponse :: lateResponses)).result =
      RecvResult.payload true 50 ∧
    (sendReceiveLoop 5 1000
        (staleResponses ++ matchResponse :: lateResponses)).processed =
      staleResponses.length + 1 :=
  sendReceive_correlates 5 1000 staleResponses matchResponse lateResponses
    (by decide) (by decide) (by decide) (by decide)

/-- C2: when the connection monitor reports the socket disconnected,
`_send_receive` returns the empty (failure) response with the client state
untouched: no transport send or receive happens and the message-id counter
is not incremented. -/
theorem sendReceive_disconnected (st : OdinDataState) (timeoutMs : Nat)
    (pending : List Resp) (hdown : st.connStatus = false) :
    sendReceive st timeoutMs pending = (RecvResult.empty, st) := by
  simp [sendReceive, hdown]

/-- C2 witness: a concrete disconnected client state is returned verbatim
with the empty response. -/
theorem sendReceive_disconnected_witness :
    sendReceive ⟨false, 4, 4, 7⟩ 1000 [⟨1, true, some 5, true, 50⟩] =
      (RecvResult.empty, ⟨false, 4, 4, 7⟩) :=
  sendReceive_disconnected ⟨false, 4, 4, 7⟩ 1000 [⟨1, true, some 5, true, 50⟩]
    (by decide)

/-! ## Theorems: timeout window, malformed responses, connection invariant -/

/-- Two valid responses with stale ids, each arriving exactly one timeout
after its poll began. -/
def slowStaleResponses : List Resp :=
  [⟨100, true, some 1, true, 10⟩, ⟨100, true, some 2, true, 20⟩]

/-- C5 counterexample: with a 100 ms timeout and two non-matching
responses each arriving 100 ms into its poll, the receive loop returns
failure only after 300 ms: each discarded response restarts a fresh
full-timeout poll, so the total wait is not bounded by the single
configured timeout. -/
theorem sendReceive_timeout_not_single_window :
    (sendReceiveLoop 5 100 slowStaleResponses).result = RecvResult.empty ∧
    (sendReceiveLoop 5 100 slowStaleResponses).elapsed = 300 ∧
    ¬ (sendReceiveLoop 5 100 slowStaleResponses).elapsed ≤ 100 := by
  decide

/-- C5 amended: each loop iteration polls afresh with the full configured
timeout, so the total time `_send_receive` can wait is bounded by
(number of responses received + 1) times the configured timeout, not by a
single timeout. -/
theorem sendReceive_timeout_per_response_bound (msgId timeoutMs : Nat)
    (pending : List Resp) :
    (sendReceiveLoop msgId timeoutMs pending).elapsed ≤
      ((sendReceiveLoop msgId timeoutMs pending).processed + 1) * timeoutMs := by
  induction pending with
  | nil => simp [sendReceiveLoop]
  | cons r rest ih =>
    simp only [sendReceiveLoop]
    by_cases hg : r.gap ≤ timeoutMs
    · rw [if_pos hg]
      by_cases hv : r.valid
      · rw [if_pos hv]
        by_cases hid : r.rid = some msgId
        · rw [if_pos hid]
          simpa using Nat.le_trans hg (by omega)
        · rw [if_neg hid]
          simp only []
          have := ih
          nlinarith [Nat.zero_le ((sendReceiveLoop msgId timeoutMs rest).processed)]
      · rw [if_neg hv]
        simpa using Nat.le_trans hg (by omega)
    · rw [if_neg hg]
      simp only []
      omega

/-- A malformed response followed by a valid response that matches the
sent id 5. -/
def invalidThenMatch : List Resp :=
  [⟨0, false, none, false, 0⟩, ⟨0, true, some 5, true, 77⟩]

/-- C6 counterexample: a malformed response makes `_send_receive` return
the empty (failure) response at once — only that one response is received,
and the matching response queued right behind it is never processed, so
the receive loop does not continue until a match or timeout. -/
theorem sendReceive_invalid_terminates_cex :
    sendReceiveLoop 5 100 invalidThenMatch = ⟨RecvResult.empty, 0, 1⟩ ∧
    (sendReceiveLoop 5 100 invalidThenMatch).result ≠
      RecvResult.payload true 77 := by
  decide

/-- C6 amended: a malformed (invalid) response received within the poll
window terminates the call immediately with the empty failure response,
with no further response processed; only valid responses with a
non-matching id are discarded with the loop continuing. -/
theorem sendReceive_invalid_terminates (msgId timeoutMs : Nat) (r : Resp)
    (rest : List Resp) (hg : r.gap ≤ timeoutMs) (hv : r.valid = false) :
    sendReceiveLoop msgId timeoutMs (r :: rest) =
      ⟨RecvResult.empty, r.gap, 1⟩ := by
  simp [sendReceiveLoop, hg, hv]

/-- C6 amended witness: a concrete malformed response in the window ends
the loop at once. -/
theorem sendReceive_invalid_terminates_witness :
    sendReceiveLoop 5 100 (⟨3, false, none, false, 0⟩ :: [⟨0, true, some 5, true, 77⟩]) =
      ⟨RecvResult.empty, 3, 1⟩ :=
  sendReceive_invalid_terminates 5 100 ⟨3, false, none, false, 0⟩
    [⟨0, true, some 5, true, 77⟩] (by decide) (by decide)

/-- C9: the connection flag is driven by transport events alone: it starts
false, becomes true exactly on an accept event, false exactly on a
disconnect event, is untouched by any other monitor event, and no
`_send_receive` call — whatever its outcome, timeout included — changes
it. -/
theorem connection_status_transport_only :
    initConnectionStatus = false ∧
    (∀ s : Bool, handleMonitorEvent s MonitorEvent.accepted = true) ∧
    (∀ s : Bool, handleMonitorEvent s MonitorEvent.disconnected = false) ∧
    (∀ s : Bool, handleMonitorEvent s MonitorEvent.other = s) ∧
    (∀ (st : OdinDataState) (timeoutMs : Nat) (pending : List Resp),
      (sendReceive st timeoutMs pending).2.connStatus = st.connStatus) := by
  refine ⟨rfl, fun s => rfl, fun s => rfl, fun s => rfl, ?_⟩
  intro st timeoutMs pending
  by_cases h : st.connStatus = false
  · simp [sendReceive, h]
  · simp [sendReceive, h]

/-! ## Embedding of `MunirFpController` (fp_controller.py) -/

/-- The slice of one frame-processor status document that
`_is_executing` and `_frames_written` read: the optional `hdf` section
with its `writing` flag and `frames_written` counter (absent fields take
the Python `.get` defaults `False` / `0`). -/
structure HdfStatus where
  writing : Bool
  frames_written : Nat
deriving DecidableEq, Repr

/-- One entry of `self.fp_status`: a status document that may or may not
contain an `hdf` section. -/
structure FpStatus where
  hdf : Option HdfStatus
deriving DecidableEq, Repr

/-- `MunirFpController._is_executing` (fp_controller.py, lines 161-168):
the OR over all fp status entries of `fp_status['hdf'].get('writing',
False)`, skipping entries without an `hdf` key. -/
def isExecuting (sts : List FpStatus) : Bool :=
  sts.foldl (fun acc s =>
    match s.hdf with
    | some h => acc || h.writing
    | none => acc) false

/-- The controller state read and written on the execute path: the cached
per-worker status list and the edge-trigger flag `do_execute`. -/
structure FpCtrl where
  fp_status : List FpStatus
  do_execute : Bool
deriving DecidableEq, Repr

/-- `MunirFpController.set_execute` (fp_controller.py, lines 142-159):
on a true value, sets `do_execute` if `_is_executing()` is false and
raises `MunirError` otherwise; a false value changes nothing. -/
def set_execute (c : FpCtrl) (value : Bool) : Except String FpCtrl :=
  if value then
    if !(isExecuting c.fp_status) then
      Except.ok { c with do_execute := true }
    else
      Except.error "Cannot trigger execution while acquisition is already running"
  else
    Except.ok c

/-- The trigger dispatch at the end of `MunirFpController.set`
(fp_controller.py, lines 112-130): if `do_execute` is set, clear it and
call `execute_acquisition()` once.  `execResult` is the boolean returned
by that call; the source discards it.  Returns the new state and how many
times `execute_acquisition` was called. -/
def dispatchExecute (c : FpCtrl) (execResult : Bool) : FpCtrl × Nat :=
  if c.do_execute then
    ({ c with do_execute := false }, 1)
  else
    (c, 0)

/-- `MunirFpController.set` for a request carrying the execute leaf
(`execLeaf`): `param_tree.set` invokes `set_execute` with the written
value (a raised `MunirError` propagates to the adapter), then the
trigger, if set, is dispatched. -/
def fpSet (c : FpCtrl) (execLeaf : Option Bool) (execResult : Bool) :
    Except String (FpCtrl × Nat) :=
  match execLeaf with
  | some v => do
    let c1 ← set_execute c v
    pure (dispatchExecute c1 execResult)
  | none => pure (dispatchExecute c execResult)

/-! ## Theorems: edge-triggered execution -/

/-- C3: with no pending trigger, writing true to the execute leaf while
the subsystem is not executing sets the internal trigger
(`set_execute` returns the state with `do_execute` true) and the request
dispatches exactly one `execute_acquisition` call; writing true while the
subsystem is already executing makes the request fail with the explicit
`MunirError` message rather than being silently ignored. -/
theorem fp_execute_edge_trigger (c : FpCtrl) (execResult : Bool)
    (hidle : c.do_execute = false) :
    (isExecuting c.fp_status = false →
      set_execute c true = Except.ok { c with do_execute := true } ∧
      fpSet c (some true) execResult =
        Except.ok ({ c with do_execute := false }, 1)) ∧
    (isExecuting c.fp_status = true →
      fpSet c (some true) execResult =
        Except.error "Cannot trigger execution while acquisition is already running") := by
  constructor
  · intro hnotexec
    constructor
    · simp [set_execute, hnotexec]
    · simp [fpSet, set_execute, hnotexec, dispatchExecute]
  · intro hexec
    simp [fpSet, set_execute, hexec, dispatchExecute]

/-- C3 witness: a concrete idle controller (one worker not writing)
accepts the trigger and executes once; the same controller with the
worker writing rejects the trigger with the explicit error. -/
theorem fp_execute_edge_trigger_witness :
    ((⟨[⟨some ⟨false, 0⟩⟩], false⟩ : FpCtrl).do_execute = false) ∧
    (isExecuting ([⟨some ⟨false, 0⟩⟩] : List FpStatus) = false →
      set_execute ⟨[⟨some ⟨false, 0⟩⟩], false⟩ true =
        Except.ok ⟨[⟨some ⟨false, 0⟩⟩], true⟩ ∧
      fpSet ⟨[⟨some ⟨false, 0⟩⟩], false⟩ (some true) true =
        Except.ok (⟨[⟨some ⟨false, 0⟩⟩], false⟩, 1)) ∧
    (isExecuting ([⟨some ⟨false, 0⟩⟩] : List FpStatus) = true →
      fpSet ⟨[⟨some ⟨false, 0⟩⟩], false⟩ (some true) true =
        Except.error "Cannot trigger execution while acquisition is already running") :=
  ⟨by decide,
    (fp_execute_edge_trigger ⟨[⟨some ⟨false, 0⟩⟩], false⟩ true (by decide)).1,
    (fp_execute_edge_trigger ⟨[⟨some ⟨false, 0⟩⟩], false⟩ true (by decide)).2⟩

/-- C4 counterexample: dispatching a pending trigger whose
`execute_acquisition` call fails (`execResult = false`) still clears the
trigger flag — the flag is not retained on failure, refuting the claim
that it is cleared only on success. -/
theorem fp_trigger_cleared_on_failure_cex :
    (dispatchExecute ⟨[], true⟩ false).1.do_execute = false ∧
    (dispatchExecute ⟨[], true⟩ false).2 = 1 := by
  decide

/-- C4 amended: when a pending execution trigger is dispatched, the
trigger flag is cleared unconditionally before `execute_acquisition` is
invoked — whatever that call returns, the flag ends up false and exactly
one call is made. -/
theorem fp_trigger_cleared_unconditionally (c : FpCtrl) (execResult : Bool)
    (htrig : c.do_execute = true) :
    (dispatchExecute c execResult).1.do_execute = false ∧
    (dispatchExecute c execResult).2 = 1 := by
  simp [dispatchExecute, htrig]

/-- C4 amended witness: a concrete pending trigger with a successful call
is likewise cleared after exactly one call. -/
theorem fp_trigger_cleared_unconditionally_witness :
    (dispatchExecute ⟨[], true⟩ true).1.do_execute = false ∧
    (dispatchExecute ⟨[], true⟩ true).2 = 1 :=
  fp_trigger_cleared_unconditionally ⟨[], true⟩ true (by decide)

/-! ## JSON documents and Python dicts

Configuration documents are JSON values; a dict is an ordered association
list.  `jset` is Python dict assignment `d[k] = v` (replace in place when
the key exists, append otherwise); `jget` is `d.get(k)`. -/

/-- A JSON value as used in the odin-data configuration documents. -/
inductive JVal where
  | s (v : String)
  | n (v : Nat)
  | b (v : Bool)
  | obj (fields : List (String × JVal))

/-- Python `d.get(k)`: the value at the first (unique) occurrence of key
`k`, if any. -/
def jget : List (String × JVal) → String → Option JVal
  | [], _ => none
  | (k1, v) :: rest, k => if k1 = k then some v else jget rest k

/-- Python `d[k] = v`: replace the value at `k` when present, else append
the new binding. -/
def jset : List (String × JVal) → String → JVal → List (String × JVal)
  | [], k, v => [(k, v)]
  | (k1, v1) :: rest, k, v =>
    if k1 = k then (k, v) :: rest else (k1, v1) :: jset rest k v

/-- `d.get(k)` when the value must itself be a dict (`d[k][...]`-style
access); `none` covers both a missing key and a non-object value, either
of which raises in the Python source. -/
def jgetObj (fs : List (String × JVal)) (k : String) :
    Option (List (String × JVal)) :=
  match jget fs k with
  | some (JVal.obj o) => some o
  | _ => none

theorem jget_jset_same (fs : List (String × JVal)) (k : String) (v : JVal) :
    jget (jset fs k v) k = some v := by
  induction fs with
  | nil => simp [jget, jset]
  | cons p rest ih =>
    by_cases h : p.1 = k
    · simp [jget, jset, h]
    · simp [jget, jset, h, ih]

theorem jget_jset_other (fs : List (String × JVal)) (k : String) (v : JVal)
    (k1 : String) (h : k1 ≠ k) :
    jget (jset fs k v) k1 = jget fs k1 := by
  induction fs with
  | nil => simp [jget, jset, fun hh => h hh.symm ∘ Eq.symm, Ne.symm h]
  | cons p rest ih =>
    by_cases hp : p.1 = k
    · have : ¬ (k = k1) := fun hh => h hh.symm
      simp [jget, jset, hp, this]
    · simp only [jset, if_neg hp, jget]
      by_cases hp1 : p.1 = k1
      · simp [hp1]
      · simp [hp1, ih]

/-! ## Embedding of `OdinData.create_acquisition` (odin_data_util.py) -/

/-- The plugin-name scan of `create_acquisition` (lines 145-149): the
first key of the acquisition_config section that is not `hdf`. -/
def pluginName (acq : List (String × JVal)) : Option String :=
  (acq.map Prod.fst).find? (fun k => k != "hdf")

/-- The configuration document `create_acquisition` builds and passes to
`set_config` (odin_data_util.py, lines 143-162): a copy of the
acquisition_config section with the plugin's `rx_frames`, `hdf.file.path`,
`hdf.frames` and `hdf.acquisition_id` overridden.  `none` is the path on
which no document is sent: no non-hdf plugin key exists (the function logs
and returns False), or an indexed key is missing or not a dict (the
Python subscripting raises). -/
def createAcquisitionDoc (acq : List (String × JVal)) (path acqId : String)
    (frames : Nat) : Option (List (String × JVal)) :=
  match pluginName acq with
  | none => none
  | some plugin =>
    match jgetObj acq plugin with
    | none => none
    | some plugObj =>
      let acq1 := jset acq plugin (JVal.obj (jset plugObj "rx_frames" (JVal.n frames)))
      match jgetObj acq1 "hdf" with
      | none => none
      | some hdfObj =>
        match jgetObj hdfObj "file" with
        | none => none
        | some fileObj =>
          let hdf1 := jset hdfObj "file" (JVal.obj (jset fileObj "path" (JVal.s path)))
          let hdf2 := jset hdf1 "frames" (JVal.n frames)
          let hdf3 := jset hdf2 "acquisition_id" (JVal.s acqId)
          some (jset acq1 "hdf" (JVal.obj hdf3))

/-- C7: against a profile whose acquisition_config has (exactly) one
non-hdf plugin key, `create_acquisition(path, id, frames)` builds and
sends the acquisition_config section with the plugin's `rx_frames` set to
`frames`, `hdf.file.path` set to `path`, `hdf.frames` set to `frames` and
`hdf.acquisition_id` set to `id`, every other field of the plugin
section, the hdf section, the hdf file section and the top level left
exactly as loaded. -/
theorem create_acquisition_overrides (acq : List (String × JVal))
    (path acqId : String) (frames : Nat) (plugin : String)
    (plugObj hdfObj fileObj : List (String × JVal))
    (hplug : pluginName acq = some plugin)
    (huniq : ∀ k ∈ acq.map Prod.fst, k = plugin ∨ k = "hdf")
    (hpo : jget acq plugin = some (JVal.obj plugObj))
    (hh : jget acq "hdf" = some (JVal.obj hdfObj))
    (hf : jget hdfObj "file" = some (JVal.obj fileObj)) :
    ∃ doc plugObj2 hdfObj2 fileObj2,
      createAcquisitionDoc acq path acqId frames = some doc ∧
      jget doc plugin = some (JVal.obj plugObj2) ∧
      jget plugObj2 "rx_frames" = some (JVal.n frames) ∧
      (∀ k, k ≠ "rx_frames" → jget plugObj2 k = jget plugObj k) ∧
      jget doc "hdf" = some (JVal.obj hdfObj2) ∧
      jget hdfObj2 "frames" = some (JVal.n frames) ∧
      jget hdfObj2 "acquisition_id" = some (JVal.s acqId) ∧
      jget hdfObj2 "file" = some (JVal.obj fileObj2) ∧
      jget fileObj2 "path" = some (JVal.s path) ∧
      (∀ k, k ≠ "path" → jget fileObj2 k = jget fileObj k) ∧
      (∀ k, k ≠ "frames" → k ≠ "acquisition_id" → k ≠ "file" →
        jget hdfObj2 k = jget hdfObj k) ∧
      (∀ k, k ≠ plugin → k ≠ "hdf" → jget doc k = jget acq k) := by
  have hne : plugin ≠ "hdf" := by
    have := List.find?_some hplug
    simpa [bne_iff_ne] using this
  have h1 : jgetObj acq plugin = some plugObj := by
    simp [jgetObj, hpo]
  have h2 : jgetObj
      (jset acq plugin (JVal.obj (jset plugObj "rx_frames" (JVal.n frames))))
      "hdf" = some hdfObj := by
    simp [jgetObj, jget_jset_other acq plugin _ "hdf" (Ne.symm hne), hh]
  have h3 : jgetObj hdfObj "file" = some fileObj := by
    simp [jgetObj, hf]
  refine ⟨jset (jset acq plugin (JVal.obj (jset plugObj "rx_frames" (JVal.n frames))))
      "hdf"
      (JVal.obj (jset (jset (jset hdfObj "file"
          (JVal.obj (jset fileObj "path" (JVal.s path))))
        "frames" (JVal.n frames)) "acquisition_id" (JVal.s acqId))),
    jset plugObj "rx_frames" (JVal.n frames),
    jset (jset (jset hdfObj "file"
        (JVal.obj (jset fileObj "path" (JVal.s path))))
      "frames" (JVal.n frames)) "acquisition_id" (JVal.s acqId),
    jset fileObj "path" (JVal.s path), ?_, ?_, ?_, ?_, ?_, ?_, ?_, ?_, ?_,
    ?_, ?_, ?_⟩
  · simp only [createAcquisitionDoc, hplug, h1, h2, h3]
  · rw [jget_jset_other _ "hdf" _ plugin hne, jget_jset_same]
  · exact jget_jset_same _ _ _
  · intro k hk
    exact jget_jset_other _ _ _ _ hk
  · exact jget_jset_same _ _ _
  · rw [jget_jset_other _ "acquisition_id" _ "frames" (by decide),
      jget_jset_same]
  · exact jget_jset_same _ _ _
  · rw [jget_jset_other _ "acquisition_id" _ "file" (by decide),
      jget_jset_other _ "frames" _ "file" (by decide), jget_jset_same]
  · exact jget_jset_same _ _ _
  · intro k hk
    exact jget_jset_other _ _ _ _ hk
  · intro k hk1 hk2 hk3
    rw [jget_jset_other _ "acquisition_id" _ k hk2,
      jget_jset_other _ "frames" _ k hk1, jget_jset_other _ "file" _ k hk3]
  · intro k hk1 hk2
    rw [jget_jset_other _ "hdf" _ k hk2, jget_jset_other _ plugin _ k hk1]

/-- A concrete loaded acquisition_config section: one `hibirdsdpdk`
plugin section and an `hdf` section. -/
def sampleAcqConfig : List (String × JVal) :=
  [("hibirdsdpdk", JVal.obj [("rx_frames", JVal.n 1000), ("rx_enable", JVal.b false)]),
   ("hdf", JVal.obj
     [("file", JVal.obj [("path", JVal.s "/old"), ("name", JVal.s "test")]),
      ("frames", JVal.n 1000),
      ("acquisition_id", JVal.s "old")])]

/-- C7 witness: `create_acquisition("/data", "run1", 500)` on the sample
profile produces the overridden document the claim describes. -/
theorem create_acquisition_overrides_witness :
    pluginName sampleAcqConfig = some "hibirdsdpdk" ∧
    (∃ doc plugObj2 hdfObj2 fileObj2,
      createAcquisitionDoc sampleAcqConfig "/data" "run1" 500 = some doc ∧
      jget doc "hibirdsdpdk" = some (JVal.obj plugObj2) ∧
      jget plugObj2 "rx_frames" = some (JVal.n 500) ∧
      (∀ k, k ≠ "rx_frames" →
        jget plugObj2 k =
          jget [("rx_frames", JVal.n 1000), ("rx_enable", JVal.b false)] k) ∧
      jget doc "hdf" = some (JVal.obj hdfObj2) ∧
      jget hdfObj2 "frames" = some (JVal.n 500) ∧
      jget hdfObj2 "acquisition_id" = some (JVal.s "run1") ∧
      jget hdfObj2 "file" = some (JVal.obj fileObj2) ∧
      jget fileObj2 "path" = some (JVal.s "/data") ∧
      (∀ k, k ≠ "path" →
        jget fileObj2 k =
          jget [("path", JVal.s "/old"), ("name", JVal.s "test")] k) ∧
      (∀ k, k ≠ "frames" → k ≠ "acquisition_id" → k ≠ "file" →
        jget hdfObj2 k =
          jget [("file", JVal.obj [("path", JVal.s "/old"), ("name", JVal.s "test")]),
            ("frames", JVal.n 1000), ("acquisition_id", JVal.s "old")] k) ∧
      (∀ k, k ≠ "hibirdsdpdk" → k ≠ "hdf" → jget doc k = jget sampleAcqConfig k)) :=
  ⟨by decide,
    create_acquisition_overrides sampleAcqConfig "/data" "run1" 500
      "hibirdsdpdk"
      [("rx_frames", JVal.n 1000), ("rx_enable", JVal.b false)]
      [("file", JVal.obj [("path", JVal.s "/old"), ("name", JVal.s "test")]),
        ("frames", JVal.n 1000), ("acquisition_id", JVal.s "old")]
      [("path", JVal.s "/old"), ("name", JVal.s "test")]
      (by decide) (by decide) (by rfl) (by rfl) (by rfl)⟩

/-! ## Embedding of `OdinData` config loading and control operations -/

/-- `OdinData.load_config` (odin_data_util.py, lines 77-94).  `doc` is the
parsed external JSON document, `none` when opening or parsing it raised
(the `except` branch).  A present subsystem key yields its section; a
missing key or any failure yields the empty profile.  The function is
total: it never raises to the caller. -/
def load_config (doc : Option (List (String × JVal))) (subsystem : String) :
    List (String × JVal) :=
  match doc with
  | none => []
  | some json =>
    match jgetObj json subsystem with
    | some cfg => cfg
    | none => []

/-- Full client state: the transport-facing state plus the cached
configuration profile `self.config`. -/
structure OdinDataFull where
  st : OdinDataState
  config : List (String × JVal)

/-- Python `dict.update`: fold the updates into the base dict. -/
def dictUpdate (base upd : List (String × JVal)) : List (String × JVal) :=
  upd.foldl (fun acc kv => jset acc kv.1 kv.2) base

/-- `OdinData.set_config` (odin_data_util.py, lines 96-107): send a
configure command through `_send_receive`; when the response's msg_type is
an ACK, merge the document into the cached config; return the response. -/
def set_config (od : OdinDataFull) (doc : List (String × JVal))
    (timeoutMs : Nat) (pending : List Resp) : RecvResult × OdinDataFull :=
  let r := sendReceive od.st timeoutMs pending
  match r.1 with
  | .payload true _ => (r.1, ⟨r.2, dictUpdate od.config doc⟩)
  | _ => (r.1, ⟨r.2, od.config⟩)

/-- Python truthiness of the dict `_send_receive` returned: the attrs of a
matched valid response are non-empty (truthy), the empty dict is falsy. -/
def boolOfResp : RecvResult → Bool
  | .payload _ _ => true
  | .empty => false

/-- `OdinData.stop_acquisition` (odin_data_util.py, lines 178-186):
`bool(set_config(config.get('stop_config', {})))`. -/
def stop_acquisition (od : OdinDataFull) (timeoutMs : Nat)
    (pending : List Resp) : Bool × OdinDataFull :=
  let stopCfg := (jgetObj od.config "stop_config").getD []
  let r := set_config od stopCfg timeoutMs pending
  (boolOfResp r.1, r.2)

/-- `OdinData.start_acquisition` (odin_data_util.py, lines 165-176):
`bool(set_config(config.get('start_config', {})))`. -/
def start_acquisition (od : OdinDataFull) (timeoutMs : Nat)
    (pending : List Resp) : Bool × OdinDataFull :=
  let startCfg := (jgetObj od.config "start_config").getD []
  let r := set_config od startCfg timeoutMs pending
  (boolOfResp r.1, r.2)

/-- `OdinData.create_acquisition` (odin_data_util.py, lines 132-163):
stop (fail fast on failure), settle, build the overridden
acquisition_config document, fail if no plugin key is found, otherwise
send it via `set_config`.  `stopPending` and `cfgPending` are the channel
contents seen by the two sends. -/
def create_acquisition (od : OdinDataFull) (path acqId : String)
    (frames : Nat) (timeoutMs : Nat) (stopPending cfgPending : List Resp) :
    Bool × OdinDataFull :=
  let r1 := stop_acquisition od timeoutMs stopPending
  if r1.1 then
    let acq := (jgetObj r1.2.config "acquisition_config").getD []
    match createAcquisitionDoc acq path acqId frames with
    | none => (false, r1.2)
    | some doc =>
      let r2 := set_config r1.2 doc timeoutMs cfgPending
      (boolOfResp r2.1, r2.2)
  else
    (false, r1.2)

/-! ## Theorems: empty-profile behaviour (C8) -/

/-- C8 counterexample: a client holding an empty profile whose connection
is up still sends a configure message for `stop_acquisition` — the empty
`stop_config` section — and when the worker acks it with the matching id
the call returns success, not failure: control operations on an empty
profile are not failure-returning no-ops. -/
theorem empty_profile_stop_succeeds_cex :
    (stop_acquisition ⟨⟨true, 0, 0, 0⟩, []⟩ 100 [⟨0, true, some 1, true, 42⟩]).1
      = true ∧
    (stop_acquisition ⟨⟨true, 0, 0, 0⟩, []⟩ 100 [⟨0, true, some 1, true, 42⟩]).2.st.sendCount
      = 1 := by
  constructor <;> rfl

theorem foldl_jset_nil (base : List (String × JVal)) :
    dictUpdate base [] = base := rfl

theorem stop_acquisition_empty_config (od : OdinDataFull) (t : Nat)
    (p : List Resp) (h : od.config = []) :
    (stop_acquisition od t p).2.config = [] := by
  simp only [stop_acquisition, set_config, h, jgetObj, jget, Option.getD]
  rcases (sendReceive od.st t p).1 with ⟨a, b⟩ | _
  · cases a <;> simp [dictUpdate]
  · simp

/-- C8 amended: `load_config` is total and returns the empty profile on a
read/parse failure or a missing subsystem key (it never raises), and with
an empty profile `create_acquisition` always returns failure (no plugin
key can be found); `stop_acquisition` and `start_acquisition`, however,
still send an empty configure command and return the worker's answer, so
they are not unconditional failures. -/
theorem empty_profile_behaviour :
    (∀ s, load_config none s = []) ∧
    (∀ json s, jgetObj json s = none → load_config (some json) s = []) ∧
    (∀ (od : OdinDataFull) (t : Nat) (p1 p2 : List Resp)
      (path acqId : String) (frames : Nat), od.config = [] →
      (create_acquisition od path acqId frames t p1 p2).1 = false) := by
  refine ⟨fun s => rfl, ?_, ?_⟩
  · intro json s h
    simp [load_config, h]
  · intro od t p1 p2 path acqId frames hcfg
    have hstop := stop_acquisition_empty_config od t p1 hcfg
    simp only [create_acquisition, hstop]
    rcases hr : (stop_acquisition od t p1).1
    · simp
    · simp only [if_true]
      simp [jgetObj, jget, createAcquisitionDoc, pluginName]

/-- C8 amended witness: a document without the requested subsystem key
loads to the empty profile, and `create_acquisition` on an empty profile
fails at a concrete input even though the worker acks everything. -/
theorem empty_profile_behaviour_witness :
    load_config (some [("other", JVal.obj [])]) "munir" = [] ∧
    (create_acquisition ⟨⟨true, 0, 0, 0⟩, []⟩ "/data" "run1" 500 100
      [⟨0, true, some 1, true, 42⟩] [⟨0, true, some 2, true, 43⟩]).1 = false :=
  ⟨empty_profile_behaviour.2.1 [("other", JVal.obj [])] "munir" (by rfl),
    empty_profile_behaviour.2.2 ⟨⟨true, 0, 0, 0⟩, []⟩ 100
      [⟨0, true, some 1, true, 42⟩] [⟨0, true, some 2, true, 43⟩]
      "/data" "run1" 500 (by rfl)⟩

/-! ## Embedding of `MunirManager.execute_acquisition` (munir_manager.py) -/

/-- One worker of a subsystem manager, abstracted by the outcomes its
`create_acquisition` and `start_acquisition` calls would have. -/
structure Worker where
  createOk : Bool
  startOk : Bool
deriving DecidableEq, Repr

/-- The first loop of `MunirManager.execute_acquisition` (lines 140-171):
`all_success` after calling `create_acquisition` on every worker. -/
def createAll (ws : List Worker) : Bool :=
  ws.foldl (fun acc w => acc && w.createOk) true

/-- The second loop: `all_success` after calling `start_acquisition` on
every worker (reached only when every create succeeded). -/
def startAll (ws : List Worker) : Bool :=
  ws.foldl (fun acc w => acc && w.startOk) true

/-- `MunirManager.execute_acquisition`: create on all workers; if any
create failed return False before the start loop; otherwise start on all
workers and return the aggregate.  The second component counts the
`start_acquisition` requests sent. -/
def execute_acquisition (ws : List Worker) : Bool × Nat :=
  if createAll ws then
    (startAll ws, ws.length)
  else
    (false, 0)

theorem foldl_and_false (ws : List Worker) (f : Worker → Bool) :
    ws.foldl (fun acc w => acc && f w) false = false := by
  induction ws with
  | nil => rfl
  | cons r rest ih => simpa using ih

theorem createAll_false_of_mem (ws : List Worker) (w : Worker)
    (hw : w ∈ ws) (hfail : w.createOk = false) : createAll ws = false := by
  unfold createAll
  induction ws with
  | nil => cases hw
  | cons r rest ih =>
    rcases List.mem_cons.mp hw with h | h
    · subst h
      simpa [hfail] using foldl_and_false rest (fun x => x.createOk)
    · by_cases hr : r.createOk
      · simpa [hr] using ih h
      · simp only [List.foldl_cons, Bool.true_and]
        simpa [hr] using foldl_and_false rest (fun x => x.createOk)

/-- C10: in a non-empty subsystem, if `create_acquisition` fails for some
worker, `execute_acquisition` returns false and zero `start_acquisition`
requests are sent — including to the workers whose create succeeded. -/
theorem execute_acquisition_aborts_on_create_failure (ws : List Worker)
    (w : Worker) (hne : ws ≠ []) (hw : w ∈ ws)
    (hfail : w.createOk = false) :
    execute_acquisition ws = (false, 0) := by
  simp [execute_acquisition, createAll_false_of_mem ws w hw hfail]

/-- C10 witness: with worker A succeeding and worker B failing its
create, the acquisition aborts with no start sent to either. -/
theorem execute_acquisition_aborts_witness :
    ([⟨true, true⟩, ⟨false, true⟩] : List Worker) ≠ [] ∧
    execute_acquisition [⟨true, true⟩, ⟨false, true⟩] = (false, 0) :=
  ⟨by decide,
    execute_acquisition_aborts_on_create_failure
      [⟨true, true⟩, ⟨false, true⟩] ⟨false, true⟩
      (by decide) (by decide) (by decide)⟩

end Redkite
